import Mathlib

/-!
Verification of the inference aggregation engine of the crop-predict-buddy
repository (`ml_training/model_predictor.py`), shallowly embedded in Lean.

Numeric values are modelled as rationals (`ℚ`), Python dict key accesses as
`Option` lookups that can raise `KeyError`, Python exceptions as `Except`,
and the opaque joblib artifacts (regressors, scalers) as function-valued
fields of an `Artifacts` record whose loads can fail.  Each prediction entry
point additionally returns the list of artifact files it attempted to read,
so that caching behaviour is observable.
-/

namespace Crop

/-- Python-level errors that the embedded code can raise: a `KeyError` for a
missing dict key, or any exception coming from artifact loading / scaling /
inference (all collapsed to one constructor, since the source catches them
uniformly with `except Exception`). -/
inductive PyError where
  | keyError (key : String)
  | artifactError
  deriving DecidableEq, Repr

/-- The `soil` sub-dict of the input.  Every field is optional because a
Python dict may lack any key. -/
structure SoilData where
  ph : Option ℚ
  nitrogen : Option ℚ
  phosphorus : Option ℚ
  potassium : Option ℚ
  organicMatter : Option ℚ
  deriving DecidableEq, Repr

/-- The `weather` sub-dict of the input. -/
structure WeatherData where
  temperature : Option ℚ
  rainfall : Option ℚ
  humidity : Option ℚ
  sunlightHours : Option ℚ
  deriving DecidableEq, Repr

/-- The top-level input dict handed to the predictor. -/
structure InputData where
  soil : Option SoilData
  weather : Option WeatherData
  cropType : Option String
  deriving DecidableEq, Repr

/-- Dict access `d[key]`: returns the value or raises `KeyError(key)`. -/
def getKey {α : Type} (entry : Option α) (key : String) : Except PyError α :=
  match entry with
  | some v => Except.ok v
  | none => Except.error (PyError.keyError key)

/-- The random values `_prepare_features` draws per call
(`np.random.normal(15,5)`, `np.random.normal(1013,20)`,
`np.random.randint(1,13)`), passed in explicitly. -/
structure Draws where
  wind_speed_kmh : ℚ
  pressure_hpa : ℚ
  planting_month : ℤ
  deriving DecidableEq, Repr

/-- Crop-type encoding from `_prepare_features` (lines 112-118): the index in
the known-crop list, or 0 for an unknown crop. -/
def cropEncode (crops : List String) (crop_type : String) : ℕ :=
  if crop_type ∈ crops then crops.indexOf crop_type else 0

/-- `AgriculturalPredictor._prepare_features`: builds the feature vector in
source order — soil, weather, simulated wind/pressure, growing days (120),
simulated planting month, crop encoding, and the three derived indices. -/
def prepare_features (crops : List String) (d : Draws) (input_data : InputData) :
    Except PyError (List ℚ) := do
  let soil ← getKey input_data.soil "soil"
  let ph ← getKey soil.ph "ph"
  let nitrogen ← getKey soil.nitrogen "nitrogen"
  let phosphorus ← getKey soil.phosphorus "phosphorus"
  let potassium ← getKey soil.potassium "potassium"
  let organicMatter ← getKey soil.organicMatter "organicMatter"
  let weather ← getKey input_data.weather "weather"
  let temperature ← getKey weather.temperature "temperature"
  let rainfall ← getKey weather.rainfall "rainfall"
  let humidity ← getKey weather.humidity "humidity"
  let sunlightHours ← getKey weather.sunlightHours "sunlightHours"
  let crop_type ← getKey input_data.cropType "cropType"
  let crop_encoded : ℕ := cropEncode crops crop_type
  let ph_stress : ℚ := |ph - 6.5| / 6.5
  let nutrient_balance : ℚ := (nitrogen / 25 + phosphorus / 18 + potassium / 30) / 3
  let weather_stress : ℚ := |temperature - 25| / 25
  return [ph, nitrogen, phosphorus, potassium, organicMatter,
          temperature, rainfall, humidity, sunlightHours,
          d.wind_speed_kmh, d.pressure_hpa, 120, (d.planting_month : ℚ),
          (crop_encoded : ℚ), ph_stress, nutrient_balance, weather_stress]

/-- `AgriculturalModelTrainer.feature_columns` from `model_trainer.py`
(lines 52-57): the training-time feature order. -/
def feature_columns : List String :=
  ["soil_ph", "nitrogen_ppm", "phosphorus_ppm", "potassium_ppm", "organic_matter_pct",
   "temperature_c", "rainfall_mm", "humidity_pct", "sunlight_hours", "wind_speed_kmh",
   "pressure_hpa", "growing_days", "planting_month", "crop_type_encoded",
   "ph_stress", "nutrient_balance", "weather_stress"]

/-- Python 3 `round` on a rational: round half to even. -/
def pyRound (q : ℚ) : ℤ :=
  let f := Int.floor q
  let frac := q - (f : ℚ)
  if frac < 1/2 then f
  else if 1/2 < frac then f + 1
  else if f % 2 = 0 then f else f + 1

/-- Python `round(q, 1)`: round to one decimal place. -/
def pyRound1 (q : ℚ) : ℚ := (pyRound (10 * q) : ℚ) / 10

/-- An opaque regressor: `model.predict(vector)[0]`, which may itself raise. -/
def ModelFn : Type := List ℚ → Except Unit ℚ

/-- An opaque feature scaler: `scaler.transform(vector)`, which may raise. -/
def Scaler : Type := List ℚ → Except Unit (List ℚ)

/-- The artifact directory as the engine sees it.  `metadataCrops`: `none` if
`model_metadata.json` is missing or unreadable, `some m` if it parses, where
`m` is the `label_encoders.crop_type` list when present.  `scalerFile p`:
`none` if file `p` does not exist, otherwise the outcome of `joblib.load`.
`modelFile p`: the outcome of `joblib.load(p)` (missing file = error). -/
structure Artifacts where
  metadataCrops : Option (Option (List String))
  scalerFile : String → Option (Except Unit Scaler)
  modelFile : String → Except Unit ModelFn

/-- The hardcoded default crop list (fallback metadata, lines 47-51 and 71-73). -/
def default_crop_list : List String :=
  ["rice", "wheat", "maize", "cotton", "sugarcane", "tomato",
   "potato", "soybean", "barley", "sorghum", "groundnut", "mustard"]

/-- The six targets whose scalers `_load_models` tries to load (lines 61-62). -/
def scaler_targets : List String :=
  ["irrigation", "nitrogen_fertilizer", "phosphorus_fertilizer",
   "potassium_fertilizer", "yield", "yield_increase"]

/-- File name of a persisted scaler for a target. -/
def scalerPath (target : String) : String := "scaler_" ++ target ++ ".pkl"

/-- Predictor state after `__init__`: the fallback flag, the effective crop
list, and the scaler cache populated by `_load_models`. -/
structure PredictorState where
  fallback_mode : Bool
  crop_encoder : List String
  scalers : String → Option Scaler

/-- The scaler cache built by `_load_models`: for each known target whose
scaler file exists and loads, the loaded scaler. -/
def scalersOf (a : Artifacts) : String → Option Scaler := fun target =>
  if target ∈ scaler_targets then
    match a.scalerFile (scalerPath target) with
    | some (Except.ok s) => some s
    | _ => none
  else none

/-- The scaler files read (load attempts) during `_load_models`: one read per
target whose file exists. -/
def initReads (a : Artifacts) : List String :=
  (scaler_targets.filter (fun t => (a.scalerFile (scalerPath t)).isSome)).map scalerPath

/-- `AgriculturalPredictor.__init__`: loads metadata and scalers once,
returning the scaler-file reads performed and the resulting state. -/
def initPredictor (a : Artifacts) : List String × PredictorState :=
  (initReads a,
   { fallback_mode := a.metadataCrops.isNone,
     crop_encoder := (a.metadataCrops.getD none).getD default_crop_list,
     scalers := scalersOf a })

/-- `scaler.transform(features) if scaler is not None else features`. -/
def applyScaler (scaler : Option Scaler) (features : List ℚ) : Except Unit (List ℚ) :=
  match scaler with
  | some s => s features
  | none => Except.ok features

/-- Structured irrigation prediction record. -/
structure IrrigationResult where
  litersPerAcre : ℤ
  frequency : String
  method : String
  efficiency : ℤ
  criticalPeriods : List String
  deriving DecidableEq, Repr

/-- Structured fertilizer prediction record. -/
structure FertilizerResult where
  nitrogen : ℤ
  phosphorus : ℤ
  potassium : ℤ
  applicationSchedule : List String
  efficiency : ℤ
  deriving DecidableEq, Repr

/-- Structured yield prediction record. -/
structure YieldResult where
  expectedYield : ℚ
  yieldIncrease : ℤ
  limitingFactors : List String
  confidence : ℤ
  deriving DecidableEq, Repr

/-- Risk assessment record built by `predict_all`. -/
structure RiskAssessment where
  waterStress : ℚ
  nutrientDeficiency : ℚ
  climateRisk : ℚ
  overallRisk : String
  deriving DecidableEq, Repr

/-- Economic impact record built by `predict_all`. -/
structure EconomicImpact where
  costReduction : ℤ
  profitIncrease : ℚ
  deriving DecidableEq, Repr

/-- The aggregate result of `predict_all`; as a structure, every field is
present by construction. -/
structure AggregateResult where
  irrigation : IrrigationResult
  fertilizer : FertilizerResult
  yieldPrediction : YieldResult
  riskAssessment : RiskAssessment
  sustainabilityTip : String
  economicImpact : EconomicImpact
  deriving DecidableEq, Repr

/-- The irrigation fallback record (lines 168-174). -/
def irrigationFallback : IrrigationResult :=
  { litersPerAcre := 1000, frequency := "Every 2-3 days", method := "Drip Irrigation",
    efficiency := 85, criticalPeriods := ["Flowering stage"] }

/-- Post-processing of the raw predicted liters on the non-fallback path of
`predict_irrigation` (lines 148-164). -/
def irrigationFromLiters (irrigation_liters : ℚ) : IrrigationResult :=
  let mf : String × String :=
    if irrigation_liters > 2000 then ("Sprinkler System", "Daily")
    else if irrigation_liters > 1000 then ("Drip Irrigation", "Every 2-3 days")
    else ("Drip Irrigation", "Weekly")
  { litersPerAcre := max 100 (pyRound irrigation_liters),
    frequency := mf.2,
    method := mf.1,
    efficiency := if mf.1 = "Drip Irrigation" then 90 else 75,
    criticalPeriods := ["Flowering stage", "Early grain filling"] }

/-- Model file loaded by `predict_irrigation` (line 139). -/
def irrigationModelPath : String := "rf_irrigation_model.pkl"

/-- The `try` body of `predict_irrigation`: feature building, model load,
scaling, inference, post-processing — together with the model files whose
read was attempted. -/
def tryIrrigation (a : Artifacts) (st : PredictorState) (d : Draws)
    (input_data : InputData) : List String × Except PyError IrrigationResult :=
  match prepare_features st.crop_encoder d input_data with
  | Except.error e => ([], Except.error e)
  | Except.ok features =>
    ([irrigationModelPath],
      match a.modelFile irrigationModelPath with
      | Except.error _ => Except.error PyError.artifactError
      | Except.ok model =>
        match applyScaler (st.scalers "irrigation") features with
        | Except.error _ => Except.error PyError.artifactError
        | Except.ok features_scaled =>
          match model features_scaled with
          | Except.error _ => Except.error PyError.artifactError
          | Except.ok irrigation_liters => Except.ok (irrigationFromLiters irrigation_liters))

/-- `except` clause: keep the computed value, or substitute the fallback. -/
def orFallback {α : Type} (r : Except PyError α) (fallback : α) : α :=
  match r with
  | Except.ok v => v
  | Except.error _ => fallback

/-- `AgriculturalPredictor.predict_irrigation` (lines 133-174). -/
def predict_irrigation (a : Artifacts) (st : PredictorState) (d : Draws)
    (input_data : InputData) : List String × IrrigationResult :=
  let r := tryIrrigation a st d input_data
  (r.1, orFallback r.2 irrigationFallback)

/-- The fertilizer fallback record (lines 208-214). -/
def fertilizerFallback : FertilizerResult :=
  { nitrogen := 100, phosphorus := 50, potassium := 60,
    applicationSchedule := ["Split application recommended"], efficiency := 80 }

/-- Model files loaded by `predict_fertilizer` (lines 182-184). -/
def nitrogenModelPath : String := "rf_nitrogen_fertilizer_model.pkl"

/-- Phosphorus regressor file. -/
def phosphorusModelPath : String := "rf_phosphorus_fertilizer_model.pkl"

/-- Potassium regressor file. -/
def potassiumModelPath : String := "rf_potassium_fertilizer_model.pkl"

/-- Post-processing of the three raw fertilizer predictions (lines 191-205):
floor at 0, round, fixed schedule and efficiency. -/
def fertilizerFromRaw (nRaw pRaw kRaw : ℚ) : FertilizerResult :=
  { nitrogen := max 0 (pyRound nRaw),
    phosphorus := max 0 (pyRound pRaw),
    potassium := max 0 (pyRound kRaw),
    applicationSchedule :=
      ["25% at planting", "50% at vegetative stage", "25% at flowering"],
    efficiency := 85 }

/-- The `try` body of `predict_fertilizer` (lines 178-205): three model
loads in order, shared scaling, three inferences, floor at 0 and round. -/
def tryFertilizer (a : Artifacts) (st : PredictorState) (d : Draws)
    (input_data : InputData) : List String × Except PyError FertilizerResult :=
  match prepare_features st.crop_encoder d input_data with
  | Except.error e => ([], Except.error e)
  | Except.ok features =>
    match a.modelFile nitrogenModelPath with
    | Except.error _ => ([nitrogenModelPath], Except.error PyError.artifactError)
    | Except.ok n_model =>
      match a.modelFile phosphorusModelPath with
      | Except.error _ =>
        ([nitrogenModelPath, phosphorusModelPath], Except.error PyError.artifactError)
      | Except.ok p_model =>
        match a.modelFile potassiumModelPath with
        | Except.error _ =>
          ([nitrogenModelPath, phosphorusModelPath, potassiumModelPath],
           Except.error PyError.artifactError)
        | Except.ok k_model =>
          ([nitrogenModelPath, phosphorusModelPath, potassiumModelPath],
            match applyScaler (st.scalers "nitrogen_fertilizer") features with
            | Except.error _ => Except.error PyError.artifactError
            | Except.ok features_scaled =>
              match n_model features_scaled with
              | Except.error _ => Except.error PyError.artifactError
              | Except.ok nRaw =>
                match p_model features_scaled with
                | Except.error _ => Except.error PyError.artifactError
                | Except.ok pRaw =>
                  match k_model features_scaled with
                  | Except.error _ => Except.error PyError.artifactError
                  | Except.ok kRaw => Except.ok (fertilizerFromRaw nRaw pRaw kRaw))

/-- `AgriculturalPredictor.predict_fertilizer` (lines 176-214). -/
def predict_fertilizer (a : Artifacts) (st : PredictorState) (d : Draws)
    (input_data : InputData) : List String × FertilizerResult :=
  let r := tryFertilizer a st d input_data
  (r.1, orFallback r.2 fertilizerFallback)

/-- The yield fallback record (lines 261-266). -/
def yieldFallback : YieldResult :=
  { expectedYield := 3.5, yieldIncrease := 15,
    limitingFactors := ["Model prediction unavailable"], confidence := 70 }

/-- Yield regressor file (line 222). -/
def yieldModelPath : String := "rf_yield_model.pkl"

/-- Yield-increase regressor file (line 223). -/
def yieldIncreaseModelPath : String := "rf_yield_increase_model.pkl"

/-- Post-processing of `predict_yield` (lines 233-258): confidence from
input quality, limiting factors, rounding.  `expected_yield` and
`yield_increase` arrive already clamped as in lines 230-231. -/
def yieldPost (ph organicMatter temperature rainfall
    expected_yield yield_increase : ℚ) : YieldResult :=
  let confidence : ℤ :=
    85 + (if |ph - 6.5| < 0.5 then 5 else 0)
      + (if organicMatter > 3 then 3 else 0)
      + (if 50 ≤ rainfall ∧ rainfall ≤ 200 then 4 else 0)
  let limiting_factors : List String :=
    (if ph < 5.5 ∨ ph > 8.0 then ["Soil pH imbalance"] else [])
      ++ (if organicMatter < 2 then ["Low organic matter"] else [])
      ++ (if temperature < 10 ∨ temperature > 35 then ["Temperature stress"] else [])
      ++ (if rainfall < 50 then ["Water stress"] else [])
  { expectedYield := pyRound1 expected_yield,
    yieldIncrease := pyRound yield_increase,
    limitingFactors :=
      if limiting_factors = [] then ["No major limiting factors detected"]
      else limiting_factors,
    confidence := min 98 confidence }

/-- Steps of `predict_yield` after both model loads (lines 226-258): scaling,
two inferences with clamping, confidence from input quality, limiting
factors, rounding. -/
def yieldBody (st : PredictorState) (input_data : InputData)
    (yield_model increase_model : ModelFn) (features : List ℚ) :
    Except PyError YieldResult :=
  match applyScaler (st.scalers "yield") features with
  | Except.error _ => Except.error PyError.artifactError
  | Except.ok features_scaled =>
    match yield_model features_scaled with
    | Except.error _ => Except.error PyError.artifactError
    | Except.ok eyRaw =>
      match increase_model features_scaled with
      | Except.error _ => Except.error PyError.artifactError
      | Except.ok yiRaw =>
        match getKey input_data.soil "soil" with
        | Except.error e => Except.error e
        | Except.ok soil =>
          match getKey soil.ph "ph" with
          | Except.error e => Except.error e
          | Except.ok ph =>
            match getKey soil.organicMatter "organicMatter" with
            | Except.error e => Except.error e
            | Except.ok organicMatter =>
              match getKey input_data.weather "weather" with
              | Except.error e => Except.error e
              | Except.ok weather =>
                match getKey weather.rainfall "rainfall" with
                | Except.error e => Except.error e
                | Except.ok rainfall =>
                  match getKey weather.temperature "temperature" with
                  | Except.error e => Except.error e
                  | Except.ok temperature =>
                    Except.ok (yieldPost ph organicMatter temperature rainfall
                      (max 0 eyRaw) (max 0 (min 50 yiRaw)))

/-- The `try` body of `predict_yield` (lines 218-258). -/
def tryYield (a : Artifacts) (st : PredictorState) (d : Draws)
    (input_data : InputData) : List String × Except PyError YieldResult :=
  match prepare_features st.crop_encoder d input_data with
  | Except.error e => ([], Except.error e)
  | Except.ok features =>
    match a.modelFile yieldModelPath with
    | Except.error _ => ([yieldModelPath], Except.error PyError.artifactError)
    | Except.ok yield_model =>
      match a.modelFile yieldIncreaseModelPath with
      | Except.error _ =>
        ([yieldModelPath, yieldIncreaseModelPath], Except.error PyError.artifactError)
      | Except.ok increase_model =>
        ([yieldModelPath, yieldIncreaseModelPath],
         yieldBody st input_data yield_model increase_model features)

/-- `AgriculturalPredictor.predict_yield` (lines 216-266). -/
def predict_yield (a : Artifacts) (st : PredictorState) (d : Draws)
    (input_data : InputData) : List String × YieldResult :=
  let r := tryYield a st d input_data
  (r.1, orFallback r.2 yieldFallback)

/-- The fixed 8-item sustainability advice catalog (lines 300-309). -/
def sustainability_tips : List String :=
  ["Use drip irrigation to save up to 60% water compared to flood irrigation.",
   "Implement crop rotation with legumes to naturally fix nitrogen.",
   "Apply organic compost to improve soil structure and water retention.",
   "Use precision agriculture techniques with IoT sensors for optimal resource usage.",
   "Consider companion planting to naturally control pests and improve soil nutrients.",
   "Implement rainwater harvesting systems to reduce groundwater dependency.",
   "Use cover crops during off-seasons to prevent soil erosion.",
   "Apply fertilizers during optimal weather conditions to maximize uptake."]

/-- Randomness consumed by one `predict_all` call: one set of feature draws
per predictor, and the index drawn by `np.random.choice` for the tip. -/
structure Env where
  irrigationDraws : Draws
  fertilizerDraws : Draws
  yieldDraws : Draws
  tipIndex : ℕ
  deriving DecidableEq, Repr

/-- `AgriculturalPredictor.predict_all` (lines 268-329).  The accesses
`input_data['cropType']` (line 270) and
`input_data['weather']['temperature']` (line 295) sit outside every
`try`/`except` and can raise; everything else is total. -/
def predict_all (a : Artifacts) (st : PredictorState) (env : Env)
    (input_data : InputData) : List String × Except PyError AggregateResult :=
  match input_data.cropType with
  | none => ([], Except.error (PyError.keyError "cropType"))
  | some _ =>
    let ir := predict_irrigation a st env.irrigationDraws input_data
    let fe := predict_fertilizer a st env.fertilizerDraws input_data
    let yp := predict_yield a st env.yieldDraws input_data
    let log := ir.1 ++ fe.1 ++ yp.1
    let irrigation := ir.2
    let fertilizer := fe.2
    let yield_pred := yp.2
    let risk_factors : List String :=
      (if irrigation.litersPerAcre > 2000 then ["High water requirement"] else [])
        ++ (if fertilizer.nitrogen > 150 then ["High nitrogen need"] else [])
        ++ (if yield_pred.confidence < 80 then ["Low prediction confidence"] else [])
    let overall_risk : String :=
      if risk_factors.length > 2 then "High"
      else if risk_factors.length > 0 then "Medium"
      else "Low"
    match getKey input_data.weather "weather" with
    | Except.error e => (log, Except.error e)
    | Except.ok weather =>
      match getKey weather.temperature "temperature" with
      | Except.error e => (log, Except.error e)
      | Except.ok temperature =>
        let risk_assessment : RiskAssessment :=
          { waterStress := min 100 (max 0 (((irrigation.litersPerAcre : ℚ) - 1000) / 20)),
            nutrientDeficiency := min 100 (max 0
              (((fertilizer.nitrogen : ℚ) + (fertilizer.phosphorus : ℚ)
                + (fertilizer.potassium : ℚ) - 200) / 5)),
            climateRisk := min 100 (max 0 (|temperature - 25| * 2)),
            overallRisk := overall_risk }
        let sustainability_tip := sustainability_tips.getD env.tipIndex ""
        let water_saving : ℤ := if irrigation.method = "Drip Irrigation" then 20 else 5
        let fertilizer_saving : ℤ :=
          if fertilizer.nitrogen + fertilizer.phosphorus + fertilizer.potassium < 200
          then 15 else 5
        let economic_impact : EconomicImpact :=
          { costReduction := water_saving + fertilizer_saving,
            profitIncrease := max 0 ((yield_pred.yieldIncrease : ℚ) * 0.8) }
        (log, Except.ok
          { irrigation := irrigation, fertilizer := fertilizer,
            yieldPrediction := yield_pred, riskAssessment := risk_assessment,
            sustainabilityTip := sustainability_tip, economicImpact := economic_impact })

/-- A fully-populated input dict, the shape every well-formed
`AgronomicInput` has. -/
def mkInput (ph nitrogen phosphorus potassium organicMatter
    temperature rainfall humidity sunlightHours : ℚ) (crop_type : String) : InputData :=
  { soil := some { ph := some ph, nitrogen := some nitrogen, phosphorus := some phosphorus,
                   potassium := some potassium, organicMatter := some organicMatter },
    weather := some { temperature := some temperature, rainfall := some rainfall,
                      humidity := some humidity, sunlightHours := some sunlightHours },
    cropType := some crop_type }

/-- The sample input from the bottom of `model_predictor.py` (lines 336-351). -/
def sampleInput : InputData := mkInput 6.5 20 15 25 3 25 100 65 8 "rice"

/-- An empty artifact directory: no metadata, no scalers, every model load
fails. -/
def noArtifacts : Artifacts :=
  { metadataCrops := none,
    scalerFile := fun _ => none,
    modelFile := fun _ => Except.error () }

/-- A directory where every model load succeeds and every model predicts
1500, with no scalers and no metadata. -/
def demoArtifacts : Artifacts :=
  { metadataCrops := none,
    scalerFile := fun _ => none,
    modelFile := fun _ => Except.ok (fun _ => Except.ok 1500) }

/-- A directory where only the irrigation model file fails to load: every
other model loads and predicts 1500, with no scalers and no metadata. -/
def onlyIrrigationMissing : Artifacts :=
  { metadataCrops := none,
    scalerFile := fun _ => none,
    modelFile := fun p =>
      if p = irrigationModelPath then Except.error ()
      else Except.ok (fun _ => Except.ok 1500) }

/-- Concrete random draws used in concrete evaluations. -/
def demoDraws : Draws := { wind_speed_kmh := 15, pressure_hpa := 1013, planting_month := 6 }

/-- Concrete randomness environment used in concrete evaluations. -/
def demoEnv : Env :=
  { irrigationDraws := demoDraws, fertilizerDraws := demoDraws,
    yieldDraws := demoDraws, tipIndex := 0 }

/-- A malformed input: the `cropType` key is missing. -/
def inputNoCrop : InputData :=
  { soil := sampleInput.soil, weather := sampleInput.weather, cropType := none }

/-- A malformed input: the `weather` key is missing. -/
def inputNoWeather : InputData :=
  { soil := sampleInput.soil, weather := none, cropType := some "rice" }

/-- A malformed input: `weather` lacks the `temperature` key. -/
def inputNoTemperature : InputData :=
  { soil := sampleInput.soil,
    weather := some { temperature := none, rainfall := some 100,
                      humidity := some 65, sunlightHours := some 8 },
    cropType := some "rice" }

/-- The yield record produced on the sample input when every model predicts
1500 and no scaler is present. -/
def demoYieldRecord : YieldResult :=
  yieldPost 6.5 3 25 100 (max 0 1500) (max 0 (min 50 1500))

/-- The number of risk triggers (irrigation > 2000 L, nitrogen > 150,
yield confidence < 80) that hold in an aggregate result. -/
def riskTriggerCount (r : AggregateResult) : ℕ :=
  (if r.irrigation.litersPerAcre > 2000 then 1 else 0) +
  (if r.fertilizer.nitrogen > 150 then 1 else 0) +
  (if r.yieldPrediction.confidence < 80 then 1 else 0)

/-- The aggregate result `predict_all` produces on the sample input with an
empty artifact directory and `demoEnv` randomness: all three fallback
records, one risk trigger (confidence 70 < 80), the first tip, and the
fallback economics. -/
def fallbackAggregate : AggregateResult :=
  { irrigation := irrigationFallback,
    fertilizer := fertilizerFallback,
    yieldPrediction := yieldFallback,
    riskAssessment :=
      { waterStress := min 100 (max 0 (((1000 : ℚ) - 1000) / 20)),
        nutrientDeficiency := min 100 (max 0 (((100 : ℚ) + 50 + 60 - 200) / 5)),
        climateRisk := min 100 (max 0 (|(25 : ℚ) - 25| * 2)),
        overallRisk := "Medium" },
    sustainabilityTip := "Use drip irrigation to save up to 60% water compared to flood irrigation.",
    economicImpact := { costReduction := 25, profitIncrease := max 0 ((15 : ℚ) * 0.8) } }

/-- The artifact reads of a process that constructs the predictor and then
serves two irrigation predictions on the sample input. -/
def twoCallReadLog : List String :=
  (initPredictor demoArtifacts).1
    ++ (predict_irrigation demoArtifacts (initPredictor demoArtifacts).2 demoDraws sampleInput).1
    ++ (predict_irrigation demoArtifacts (initPredictor demoArtifacts).2 demoDraws sampleInput).1

/-- On a fully-populated input, `prepare_features` succeeds and returns the
feature list in source order. -/
theorem prepare_features_mkInput (crops : List String) (d : Draws)
    (ph nitrogen phosphorus potassium organicMatter
     temperature rainfall humidity sunlightHours : ℚ) (crop_type : String) :
    prepare_features crops d
        (mkInput ph nitrogen phosphorus potassium organicMatter
          temperature rainfall humidity sunlightHours crop_type) =
      Except.ok [ph, nitrogen, phosphorus, potassium, organicMatter,
        temperature, rainfall, humidity, sunlightHours,
        d.wind_speed_kmh, d.pressure_hpa, 120, (d.planting_month : ℚ),
        (cropEncode crops crop_type : ℚ), |ph - 6.5| / 6.5,
        (nitrogen / 25 + phosphorus / 18 + potassium / 30) / 3,
        |temperature - 25| / 25] := rfl

/-- `pyRound` of a nonnegative rational is nonnegative. -/
theorem pyRound_nonneg (q : ℚ) (h : 0 ≤ q) : 0 ≤ pyRound q := by
  have hf : (0:ℤ) ≤ Int.floor q := Int.floor_nonneg.mpr h
  simp only [pyRound]
  split_ifs <;> omega

/-- `pyRound` never exceeds an integer upper bound of its argument. -/
theorem pyRound_le (q : ℚ) (m : ℤ) (h : q ≤ (m : ℚ)) : pyRound q ≤ m := by
  have hfm : Int.floor q ≤ m := by
    have h2 := Int.floor_mono h
    simpa using h2
  simp only [pyRound]
  split_ifs with h1 h2 h3
  · exact hfm
  · have hlt : (Int.floor q : ℚ) < q := by linarith
    have hm : Int.floor q < m := by exact_mod_cast lt_of_lt_of_le hlt h
    omega
  · exact hfm
  · have h4 : (1:ℚ)/2 ≤ q - (Int.floor q : ℚ) := not_lt.mp h1
    have hlt : (Int.floor q : ℚ) < q := by linarith
    have hm : Int.floor q < m := by exact_mod_cast lt_of_lt_of_le hlt h
    omega

/-- Every successful `tryIrrigation` outcome is the post-processing of some
raw prediction. -/
theorem tryIrrigation_ok (a : Artifacts) (st : PredictorState) (d : Draws)
    (inp : InputData) (r : IrrigationResult)
    (h : (tryIrrigation a st d inp).2 = Except.ok r) :
    ∃ l, r = irrigationFromLiters l := by
  unfold tryIrrigation at h
  split at h
  · simp at h
  · dsimp only at h
    split at h
    · simp at h
    · split at h
      · simp at h
      · split at h
        · simp at h
        · exact ⟨_, by injection h with h; exact h.symm⟩

/-- Every successful `tryFertilizer` outcome is the post-processing of some
raw predictions. -/
theorem tryFertilizer_ok (a : Artifacts) (st : PredictorState) (d : Draws)
    (inp : InputData) (r : FertilizerResult)
    (h : (tryFertilizer a st d inp).2 = Except.ok r) :
    ∃ nRaw pRaw kRaw, r = fertilizerFromRaw nRaw pRaw kRaw := by
  unfold tryFertilizer at h
  split at h
  · simp at h
  · split at h
    · simp at h
    · split at h
      · simp at h
      · split at h
        · simp at h
        · dsimp only at h
          split at h
          · simp at h
          · split at h
            · simp at h
            · split at h
              · simp at h
              · split at h
                · simp at h
                · exact ⟨_, _, _, by injection h with h; exact h.symm⟩

/-- Every successful `yieldBody` outcome is the post-processing of some
input values and clamped raw predictions. -/
theorem yieldBody_ok (st : PredictorState) (inp : InputData)
    (ym im : ModelFn) (features : List ℚ) (r : YieldResult)
    (h : yieldBody st inp ym im features = Except.ok r) :
    ∃ ph organicMatter temperature rainfall eyRaw yiRaw,
      r = yieldPost ph organicMatter temperature rainfall
            (max 0 eyRaw) (max 0 (min 50 yiRaw)) := by
  unfold yieldBody at h
  split at h
  · simp at h
  · split at h
    · simp at h
    · split at h
      · simp at h
      · split at h
        · simp at h
        · split at h
          · simp at h
          · split at h
            · simp at h
            · split at h
              · simp at h
              · split at h
                · simp at h
                · split at h
                  · simp at h
                  · exact ⟨_, _, _, _, _, _, by injection h with h; exact h.symm⟩

/-- Every successful `tryYield` outcome is a `yieldPost` record. -/
theorem tryYield_ok (a : Artifacts) (st : PredictorState) (d : Draws)
    (inp : InputData) (r : YieldResult)
    (h : (tryYield a st d inp).2 = Except.ok r) :
    ∃ ph organicMatter temperature rainfall eyRaw yiRaw,
      r = yieldPost ph organicMatter temperature rainfall
            (max 0 eyRaw) (max 0 (min 50 yiRaw)) := by
  unfold tryYield at h
  split at h
  · simp at h
  · split at h
    · simp at h
    · split at h
      · simp at h
      · dsimp only at h
        exact yieldBody_ok _ _ _ _ _ _ h

/-- The value part of `predict_irrigation` is the `try` outcome with the
fallback substituted on error. -/
theorem predict_irrigation_snd (a : Artifacts) (st : PredictorState) (d : Draws)
    (inp : InputData) :
    (predict_irrigation a st d inp).2 =
      orFallback (tryIrrigation a st d inp).2 irrigationFallback := rfl

/-- The value part of `predict_fertilizer` is the `try` outcome with the
fallback substituted on error. -/
theorem predict_fertilizer_snd (a : Artifacts) (st : PredictorState) (d : Draws)
    (inp : InputData) :
    (predict_fertilizer a st d inp).2 =
      orFallback (tryFertilizer a st d inp).2 fertilizerFallback := rfl

/-- The value part of `predict_yield` is the `try` outcome with the fallback
substituted on error. -/
theorem predict_yield_snd (a : Artifacts) (st : PredictorState) (d : Draws)
    (inp : InputData) :
    (predict_yield a st d inp).2 =
      orFallback (tryYield a st d inp).2 yieldFallback := rfl

/-- Confidence of any `yieldPost` record lies in `[85, 98]`. -/
theorem yieldPost_confidence_bounds (ph organicMatter temperature rainfall
    expected_yield yield_increase : ℚ) :
    85 ≤ (yieldPost ph organicMatter temperature rainfall
            expected_yield yield_increase).confidence ∧
    (yieldPost ph organicMatter temperature rainfall
       expected_yield yield_increase).confidence ≤ 98 := by
  simp only [yieldPost]
  refine ⟨le_min (by norm_num) ?_, min_le_left _ _⟩
  split_ifs <;> norm_num

/-- Claim C6: on both the model path and the fallback path, irrigation
liters/acre is an integer at least 100, the three fertilizer quantities are
integers at least 0, and the yield increase lies in `[0, 50]` (integrality
is by the `ℤ`-valued record fields). -/
theorem numeric_output_ranges (a : Artifacts) (st : PredictorState) (d : Draws)
    (input_data : InputData) :
    100 ≤ (predict_irrigation a st d input_data).2.litersPerAcre ∧
    0 ≤ (predict_fertilizer a st d input_data).2.nitrogen ∧
    0 ≤ (predict_fertilizer a st d input_data).2.phosphorus ∧
    0 ≤ (predict_fertilizer a st d input_data).2.potassium ∧
    0 ≤ (predict_yield a st d input_data).2.yieldIncrease ∧
    (predict_yield a st d input_data).2.yieldIncrease ≤ 50 := by
  have hyi : ∀ yiRaw : ℚ, 0 ≤ pyRound (max 0 (min 50 yiRaw)) ∧
      pyRound (max 0 (min 50 yiRaw)) ≤ 50 := by
    intro yiRaw
    constructor
    · exact pyRound_nonneg _ (le_max_left _ _)
    · refine pyRound_le _ 50 ?_
      push_cast
      exact max_le (by norm_num) (min_le_left _ _)
  refine ⟨?_, ?_, ?_, ?_, ?_, ?_⟩
  · rw [predict_irrigation_snd]
    cases h : (tryIrrigation a st d input_data).2 with
    | error e => exact (by norm_num : (100:ℤ) ≤ 1000)
    | ok r =>
      obtain ⟨l, rfl⟩ := tryIrrigation_ok a st d input_data r h
      exact le_max_left 100 (pyRound l)
  · rw [predict_fertilizer_snd]
    cases h : (tryFertilizer a st d input_data).2 with
    | error e => exact (by norm_num : (0:ℤ) ≤ 100)
    | ok r =>
      obtain ⟨nRaw, pRaw, kRaw, rfl⟩ := tryFertilizer_ok a st d input_data r h
      exact le_max_left 0 (pyRound nRaw)
  · rw [predict_fertilizer_snd]
    cases h : (tryFertilizer a st d input_data).2 with
    | error e => exact (by norm_num : (0:ℤ) ≤ 50)
    | ok r =>
      obtain ⟨nRaw, pRaw, kRaw, rfl⟩ := tryFertilizer_ok a st d input_data r h
      exact le_max_left 0 (pyRound pRaw)
  · rw [predict_fertilizer_snd]
    cases h : (tryFertilizer a st d input_data).2 with
    | error e => exact (by norm_num : (0:ℤ) ≤ 60)
    | ok r =>
      obtain ⟨nRaw, pRaw, kRaw, rfl⟩ := tryFertilizer_ok a st d input_data r h
      exact le_max_left 0 (pyRound kRaw)
  · rw [predict_yield_snd]
    cases h : (tryYield a st d input_data).2 with
    | error e => exact (by norm_num : (0:ℤ) ≤ 15)
    | ok r =>
      obtain ⟨ph, om, t, rain, ey, yi, rfl⟩ := tryYield_ok a st d input_data r h
      exact (hyi yi).1
  · rw [predict_yield_snd]
    cases h : (tryYield a st d input_data).2 with
    | error e => exact (by norm_num : (15:ℤ) ≤ 50)
    | ok r =>
      obtain ⟨ph, om, t, rain, ey, yi, rfl⟩ := tryYield_ok a st d input_data r h
      exact (hyi yi).2

/-- Claim C3: whenever the `try` body of a predictor raises — each predictor
taken on its own, for any input, artifacts and draws — that predictor
returns its own fixed fallback record instead of propagating; the irrigation
fallback is exactly 1000 L/acre, Drip Irrigation, every 2-3 days, 85%
efficiency.  The three implications are independent, so a failure in one
predictor says nothing about, and does not block, the others. -/
theorem predictor_fallbacks :
    (∀ (a : Artifacts) (st : PredictorState) (d : Draws)
       (input_data : InputData) (e : PyError),
      (tryIrrigation a st d input_data).2 = Except.error e →
      (predict_irrigation a st d input_data).2 = irrigationFallback) ∧
    (∀ (a : Artifacts) (st : PredictorState) (d : Draws)
       (input_data : InputData) (e : PyError),
      (tryFertilizer a st d input_data).2 = Except.error e →
      (predict_fertilizer a st d input_data).2 = fertilizerFallback) ∧
    (∀ (a : Artifacts) (st : PredictorState) (d : Draws)
       (input_data : InputData) (e : PyError),
      (tryYield a st d input_data).2 = Except.error e →
      (predict_yield a st d input_data).2 = yieldFallback) ∧
    irrigationFallback =
      { litersPerAcre := 1000, frequency := "Every 2-3 days",
        method := "Drip Irrigation", efficiency := 85,
        criticalPeriods := ["Flowering stage"] } := by
  refine ⟨fun a st d input_data e h => ?_, fun a st d input_data e h => ?_,
    fun a st d input_data e h => ?_, rfl⟩
  · rw [predict_irrigation_snd, h]
    rfl
  · rw [predict_fertilizer_snd, h]
    rfl
  · rw [predict_yield_snd, h]
    rfl

/-- Witness for `predictor_fallbacks`, at a directory where only the
irrigation model file is missing: the irrigation predictor returns its
fallback record while the fertilizer and yield predictors, on the same
input, still return their non-fallback model results — a failure in one
predictor does not block the others. -/
theorem predictor_fallbacks_witness :
    (predict_irrigation onlyIrrigationMissing
       (initPredictor onlyIrrigationMissing).2 demoDraws sampleInput).2 =
      irrigationFallback ∧
    (predict_fertilizer onlyIrrigationMissing
       (initPredictor onlyIrrigationMissing).2 demoDraws sampleInput).2 =
      fertilizerFromRaw 1500 1500 1500 ∧
    (predict_yield onlyIrrigationMissing
       (initPredictor onlyIrrigationMissing).2 demoDraws sampleInput).2 =
      demoYieldRecord :=
  ⟨predictor_fallbacks.1 onlyIrrigationMissing
     (initPredictor onlyIrrigationMissing).2 demoDraws sampleInput
     PyError.artifactError rfl,
   rfl, rfl⟩

/-- Claim C5 (counterexample): 1000 lies in the claimed band `1000–2000`,
but the code maps a raw prediction of exactly 1000 to frequency `Weekly`,
not `Every 2-3 days`. -/
theorem irrigation_band_counterexample :
    (1000 : ℚ) ≤ 1000 ∧ (1000 : ℚ) ≤ 2000 ∧
    (irrigationFromLiters 1000).frequency = "Weekly" ∧
    ¬ (irrigationFromLiters 1000).frequency = "Every 2-3 days" := by decide

/-- Claim C5 (amended): liters strictly above 2000 give Sprinkler
System/Daily; liters strictly above 1000 and at most 2000 give Drip
Irrigation/Every 2-3 days; liters at most 1000 give Drip Irrigation/Weekly;
efficiency is 90 exactly when the method is Drip Irrigation, else 75. -/
theorem irrigation_bands (liters : ℚ) :
    (2000 < liters →
      (irrigationFromLiters liters).method = "Sprinkler System" ∧
      (irrigationFromLiters liters).frequency = "Daily") ∧
    (1000 < liters → liters ≤ 2000 →
      (irrigationFromLiters liters).method = "Drip Irrigation" ∧
      (irrigationFromLiters liters).frequency = "Every 2-3 days") ∧
    (liters ≤ 1000 →
      (irrigationFromLiters liters).method = "Drip Irrigation" ∧
      (irrigationFromLiters liters).frequency = "Weekly") ∧
    (irrigationFromLiters liters).efficiency =
      (if (irrigationFromLiters liters).method = "Drip Irrigation" then 90 else 75) := by
  simp only [irrigationFromLiters]
  split_ifs with h1 h2 <;>
    refine ⟨fun ha => ⟨?_, ?_⟩, fun hb hc => ⟨?_, ?_⟩, fun hd => ⟨?_, ?_⟩, ?_⟩ <;>
    first
      | rfl
      | decide
      | (exfalso; linarith)

/-- Witness for `irrigation_bands`: concrete raw predictions in each band. -/
theorem irrigation_bands_witness :
    (irrigationFromLiters 1500).method = "Drip Irrigation" ∧
    (irrigationFromLiters 1500).frequency = "Every 2-3 days" ∧
    (irrigationFromLiters 2500).method = "Sprinkler System" ∧
    (irrigationFromLiters 800).frequency = "Weekly" :=
  ⟨((irrigation_bands 1500).2.1 (by norm_num) (by norm_num)).1,
   ((irrigation_bands 1500).2.1 (by norm_num) (by norm_num)).2,
   ((irrigation_bands 2500).1 (by norm_num)).1,
   ((irrigation_bands 800).2.2.1 (by norm_num)).2⟩

/-- Claim C2: for every well-formed input the feature vector has exactly 17
components, in the canonical training-time order (matching
`feature_columns` of `model_trainer.py`), with the three derived components
computed as `ph_stress = |pH-6.5|/6.5`,
`nutrient_balance = (N/25 + P/18 + K/30)/3`, `weather_stress = |T-25|/25`. -/
theorem feature_vector_canonical (crops : List String) (d : Draws)
    (ph nitrogen phosphorus potassium organicMatter
     temperature rainfall humidity sunlightHours : ℚ) (crop_type : String) :
    prepare_features crops d
        (mkInput ph nitrogen phosphorus potassium organicMatter
          temperature rainfall humidity sunlightHours crop_type) =
      Except.ok [ph, nitrogen, phosphorus, potassium, organicMatter,
        temperature, rainfall, humidity, sunlightHours,
        d.wind_speed_kmh, d.pressure_hpa, 120, (d.planting_month : ℚ),
        (cropEncode crops crop_type : ℚ), |ph - 6.5| / 6.5,
        (nitrogen / 25 + phosphorus / 18 + potassium / 30) / 3,
        |temperature - 25| / 25] ∧
    ([ph, nitrogen, phosphorus, potassium, organicMatter,
      temperature, rainfall, humidity, sunlightHours,
      d.wind_speed_kmh, d.pressure_hpa, 120, (d.planting_month : ℚ),
      (cropEncode crops crop_type : ℚ), |ph - 6.5| / 6.5,
      (nitrogen / 25 + phosphorus / 18 + potassium / 30) / 3,
      |temperature - 25| / 25] : List ℚ).length = 17 ∧
    feature_columns.length = 17 ∧
    feature_columns =
      ["soil_ph", "nitrogen_ppm", "phosphorus_ppm", "potassium_ppm", "organic_matter_pct",
       "temperature_c", "rainfall_mm", "humidity_pct", "sunlight_hours", "wind_speed_kmh",
       "pressure_hpa", "growing_days", "planting_month", "crop_type_encoded",
       "ph_stress", "nutrient_balance", "weather_stress"] :=
  ⟨prepare_features_mkInput crops d ph nitrogen phosphorus potassium organicMatter
     temperature rainfall humidity sunlightHours crop_type, rfl, rfl, rfl⟩

/-- Claim C9: an unknown crop type encodes to index 0 and `prepare_features`
does not raise; a known crop type encodes to its index in the known-crop
list.  Component 13 of the feature vector is the crop encoding. -/
theorem crop_encoding_total (crops : List String) (d : Draws)
    (ph nitrogen phosphorus potassium organicMatter
     temperature rainfall humidity sunlightHours : ℚ) (crop_type : String) :
    (∃ v, prepare_features crops d
        (mkInput ph nitrogen phosphorus potassium organicMatter
          temperature rainfall humidity sunlightHours crop_type) = Except.ok v ∧
      v.getD 13 0 = (cropEncode crops crop_type : ℚ)) ∧
    (crop_type ∉ crops → cropEncode crops crop_type = 0) ∧
    (crop_type ∈ crops → cropEncode crops crop_type = crops.indexOf crop_type) := by
  refine ⟨⟨_, prepare_features_mkInput crops d ph nitrogen phosphorus potassium organicMatter
     temperature rainfall humidity sunlightHours crop_type, rfl⟩, ?_, ?_⟩
  · intro h
    simp [cropEncode, h]
  · intro h
    simp [cropEncode, h]

/-- Witness for `crop_encoding_total`: the unknown crop `"dragonfruit"`
encodes to 0 against the default crop list, and the known crop `"wheat"`
encodes to its index. -/
theorem crop_encoding_total_witness :
    cropEncode default_crop_list "dragonfruit" = 0 ∧
    cropEncode default_crop_list "wheat" = default_crop_list.indexOf "wheat" :=
  ⟨(crop_encoding_total default_crop_list demoDraws 6.5 20 15 25 3 25 100 65 8
      "dragonfruit").2.1 (by decide),
   (crop_encoding_total default_crop_list demoDraws 6.5 20 15 25 3 25 100 65 8
      "wheat").2.2 (by decide)⟩

/-- On a fully-populated input, a successful `yieldBody` outcome is the
post-processing of that input's pH, organic matter, temperature and
rainfall together with some clamped raw predictions. -/
theorem yieldBody_mkInput_ok (st : PredictorState) (ym im : ModelFn)
    (features : List ℚ)
    (ph nitrogen phosphorus potassium organicMatter
     temperature rainfall humidity sunlightHours : ℚ) (crop_type : String)
    (r : YieldResult)
    (h : yieldBody st
        (mkInput ph nitrogen phosphorus potassium organicMatter
          temperature rainfall humidity sunlightHours crop_type)
        ym im features = Except.ok r) :
    ∃ eyRaw yiRaw, r = yieldPost ph organicMatter temperature rainfall
        (max 0 eyRaw) (max 0 (min 50 yiRaw)) := by
  unfold yieldBody at h
  split at h
  · simp at h
  · split at h
    · simp at h
    · split at h
      · simp at h
      · simp only [mkInput, getKey, Except.ok.injEq] at h
        exact ⟨_, _, h.symm⟩

/-- On a fully-populated input, a successful `tryYield` outcome is the
post-processing of that input's values and some clamped raw predictions. -/
theorem tryYield_mkInput_ok (a : Artifacts) (st : PredictorState) (d : Draws)
    (ph nitrogen phosphorus potassium organicMatter
     temperature rainfall humidity sunlightHours : ℚ) (crop_type : String)
    (r : YieldResult)
    (h : (tryYield a st d
        (mkInput ph nitrogen phosphorus potassium organicMatter
          temperature rainfall humidity sunlightHours crop_type)).2 = Except.ok r) :
    ∃ eyRaw yiRaw, r = yieldPost ph organicMatter temperature rainfall
        (max 0 eyRaw) (max 0 (min 50 yiRaw)) := by
  unfold tryYield at h
  rw [prepare_features_mkInput] at h
  split at h
  · simp at h
  · split at h
    · simp at h
    · split at h
      · simp at h
      · exact yieldBody_mkInput_ok st _ _ _ ph nitrogen phosphorus potassium
          organicMatter temperature rainfall humidity sunlightHours crop_type r h

/-- Claim C7: yield confidence always lies in `[70, 98]`; on the
non-fallback path it equals
`min 98 (85 + (5 if |pH-6.5| < 0.5) + (3 if OM > 3) + (4 if rain in [50,200]))`,
and on the fallback path it is 70. -/
theorem yield_confidence_spec :
    (∀ (a : Artifacts) (st : PredictorState) (d : Draws) (inp : InputData),
      70 ≤ (predict_yield a st d inp).2.confidence ∧
      (predict_yield a st d inp).2.confidence ≤ 98) ∧
    (∀ (a : Artifacts) (st : PredictorState) (d : Draws)
       (ph nitrogen phosphorus potassium organicMatter
        temperature rainfall humidity sunlightHours : ℚ) (crop_type : String)
       (r : YieldResult),
      (tryYield a st d
          (mkInput ph nitrogen phosphorus potassium organicMatter
            temperature rainfall humidity sunlightHours crop_type)).2 = Except.ok r →
      r.confidence = min 98 (85 + (if |ph - 6.5| < 0.5 then 5 else 0)
        + (if organicMatter > 3 then 3 else 0)
        + (if 50 ≤ rainfall ∧ rainfall ≤ 200 then 4 else 0))) ∧
    (∀ (a : Artifacts) (st : PredictorState) (d : Draws) (inp : InputData)
       (e : PyError),
      (tryYield a st d inp).2 = Except.error e →
      (predict_yield a st d inp).2.confidence = 70) := by
  refine ⟨?_, ?_, ?_⟩
  · intro a st d inp
    rw [predict_yield_snd]
    cases h : (tryYield a st d inp).2 with
    | error e => exact ⟨(by norm_num : (70:ℤ) ≤ 70), (by norm_num : (70:ℤ) ≤ 98)⟩
    | ok r =>
      obtain ⟨ph, om, t, rain, ey, yi, rfl⟩ := tryYield_ok a st d inp r h
      have hb := yieldPost_confidence_bounds ph om t rain (max 0 ey) (max 0 (min 50 yi))
      exact ⟨le_trans (by norm_num) hb.1, hb.2⟩
  · intro a st d ph nitrogen phosphorus potassium organicMatter
      temperature rainfall humidity sunlightHours crop_type r h
    obtain ⟨ey, yi, rfl⟩ := tryYield_mkInput_ok a st d ph nitrogen phosphorus
      potassium organicMatter temperature rainfall humidity sunlightHours crop_type r h
    rfl
  · intro a st d inp e h
    rw [predict_yield_snd, h]
    rfl

/-- Witness for `yield_confidence_spec`: with an empty artifact directory
the fallback confidence is 70, and with models that predict 1500 on the
sample input the non-fallback confidence is `min 98 (85 + 5 + 0 + 4) = 94`. -/
theorem yield_confidence_spec_witness :
    (predict_yield noArtifacts (initPredictor noArtifacts).2
       demoDraws sampleInput).2.confidence = 70 ∧
    demoYieldRecord.confidence = 94 := by
  refine ⟨yield_confidence_spec.2.2 noArtifacts (initPredictor noArtifacts).2
     demoDraws sampleInput PyError.artifactError rfl, ?_⟩
  have h2 := yield_confidence_spec.2.1 demoArtifacts (initPredictor demoArtifacts).2
    demoDraws 6.5 20 15 25 3 25 100 65 8 "rice" demoYieldRecord rfl
  rw [h2]
  norm_num [min_def]

/-- Claim C1: on every well-formed input, `predict_all` returns a
structurally complete `AggregateResult` — an `Except.ok` whose record type
carries all six fields by construction — for every artifact directory,
including an empty one (fallback mode). -/
theorem predict_all_total (a : Artifacts) (st : PredictorState) (env : Env)
    (ph nitrogen phosphorus potassium organicMatter
     temperature rainfall humidity sunlightHours : ℚ) (crop_type : String) :
    ∃ r : AggregateResult,
      (predict_all a st env
        (mkInput ph nitrogen phosphorus potassium organicMatter
          temperature rainfall humidity sunlightHours crop_type)).2 = Except.ok r :=
  ⟨_, rfl⟩

/-- The overall-risk label computed from the risk-factor list coincides with
the label computed from the trigger count. -/
theorem overall_risk_count (b1 b2 b3 : Prop)
    [Decidable b1] [Decidable b2] [Decidable b3] :
    (if ((if b1 then ["High water requirement"] else [])
          ++ (if b2 then ["High nitrogen need"] else [])
          ++ (if b3 then ["Low prediction confidence"] else [])).length > 2
     then "High"
     else if ((if b1 then ["High water requirement"] else [])
          ++ (if b2 then ["High nitrogen need"] else [])
          ++ (if b3 then ["Low prediction confidence"] else [])).length > 0
     then "Medium" else "Low") =
    (if ((if b1 then 1 else 0) + (if b2 then 1 else 0)
          + (if b3 then 1 else 0) : ℕ) = 3 then "High"
     else if 1 ≤ ((if b1 then 1 else 0) + (if b2 then 1 else 0)
          + (if b3 then 1 else 0) : ℕ) then "Medium" else "Low") := by
  by_cases h1 : b1 <;> by_cases h2 : b2 <;> by_cases h3 : b3 <;>
    simp [h1, h2, h3]

/-- Claim C8: in every successful `predict_all` result, the three risk
scores follow the clamped formulas from the code, and the overall risk is
High exactly when all three triggers hold, Medium when one or two hold, and
Low when none holds. -/
theorem aggregate_risk_formulas (a : Artifacts) (st : PredictorState) (env : Env)
    (ph nitrogen phosphorus potassium organicMatter
     temperature rainfall humidity sunlightHours : ℚ) (crop_type : String)
    (r : AggregateResult)
    (h : (predict_all a st env
        (mkInput ph nitrogen phosphorus potassium organicMatter
          temperature rainfall humidity sunlightHours crop_type)).2 = Except.ok r) :
    r.riskAssessment.waterStress =
      min 100 (max 0 (((r.irrigation.litersPerAcre : ℚ) - 1000) / 20)) ∧
    r.riskAssessment.nutrientDeficiency =
      min 100 (max 0 (((r.fertilizer.nitrogen : ℚ) + (r.fertilizer.phosphorus : ℚ)
        + (r.fertilizer.potassium : ℚ) - 200) / 5)) ∧
    r.riskAssessment.climateRisk = min 100 (max 0 (|temperature - 25| * 2)) ∧
    r.riskAssessment.overallRisk =
      (if riskTriggerCount r = 3 then "High"
       else if 1 ≤ riskTriggerCount r then "Medium" else "Low") := by
  have hr := Except.ok.inj h
  subst hr
  refine ⟨rfl, rfl, rfl, ?_⟩
  exact overall_risk_count _ _ _

/-- Witness for `aggregate_risk_formulas`: the fallback aggregate on the
sample input has one trigger (confidence 70 < 80) and overall risk Medium
matching the trigger-count form. -/
theorem aggregate_risk_formulas_witness :
    fallbackAggregate.riskAssessment.overallRisk =
      (if riskTriggerCount fallbackAggregate = 3 then "High"
       else if 1 ≤ riskTriggerCount fallbackAggregate then "Medium" else "Low") :=
  (aggregate_risk_formulas noArtifacts (initPredictor noArtifacts).2 demoEnv
    6.5 20 15 25 3 25 100 65 8 "rice" fallbackAggregate rfl).2.2.2

/-- Claim C10: an input missing `cropType`, missing `weather`, or missing
`weather.temperature` makes `predict_all` raise a `KeyError` — these reads
sit outside every `try`/`except` — so structural completeness holds only
under the precondition that these fields are present. -/
theorem predict_all_keyerror (a : Artifacts) (st : PredictorState) (env : Env) :
    (predict_all a st env inputNoCrop).2 =
      Except.error (PyError.keyError "cropType") ∧
    (predict_all a st env inputNoWeather).2 =
      Except.error (PyError.keyError "weather") ∧
    (predict_all a st env inputNoTemperature).2 =
      Except.error (PyError.keyError "temperature") :=
  ⟨rfl, rfl, rfl⟩

/-- Claim C4 (counterexample): in a process that constructs the predictor
and serves two irrigation predictions, the irrigation model file is read
twice — it is not cached after the first request. -/
theorem artifact_reread_counterexample :
    twoCallReadLog.count irrigationModelPath = 2 ∧
    ¬ twoCallReadLog.count irrigationModelPath ≤ 1 := by decide

/-- Claim C4 (amended): scaler artifact files are read at most once per
process lifetime, during construction; model artifact files are not cached —
every `predict_irrigation` call on a well-formed input performs exactly one
fresh read of the irrigation model file, and a call never reads more than
that one file. -/
theorem artifact_read_policy (a : Artifacts) (st : PredictorState) (d : Draws)
    (ph nitrogen phosphorus potassium organicMatter
     temperature rainfall humidity sunlightHours : ℚ) (crop_type : String) :
    (predict_irrigation a st d
        (mkInput ph nitrogen phosphorus potassium organicMatter
          temperature rainfall humidity sunlightHours crop_type)).1 =
      [irrigationModelPath] ∧
    (∀ p : String, (initReads a).count p ≤ 1) ∧
    (∀ inp : InputData, (predict_irrigation a st d inp).1 = [] ∨
      (predict_irrigation a st d inp).1 = [irrigationModelPath]) := by
  refine ⟨?_, ?_, ?_⟩
  · unfold predict_irrigation tryIrrigation
    rw [prepare_features_mkInput]
  · intro p
    have hsub : List.Sublist (initReads a) (scaler_targets.map scalerPath) := by
      unfold initReads
      exact (List.filter_sublist _).map _
    have hnd : (scaler_targets.map scalerPath).Nodup := by decide
    calc (initReads a).count p ≤ (scaler_targets.map scalerPath).count p :=
          hsub.count_le p
      _ ≤ 1 := List.nodup_iff_count_le_one.mp hnd p
  · intro inp
    unfold predict_irrigation tryIrrigation
    cases hp : prepare_features st.crop_encoder d inp with
    | error e => exact Or.inl rfl
    | ok f => exact Or.inr rfl

end Crop
